import Mathlib

/-!
Shallow embedding of the quiz session state machine of `src/index.tsx`
(the Bopomofo vocabulary quiz).  The React component keeps a single
`GameState` record and mutates it through `setState`; each event handler
is modelled as a pure function from the pre-state (and the event data)
to the post-state.  JavaScript `null` becomes `Option`, JavaScript
truthiness of a `string | null` is modelled explicitly, an expression
that would throw a `TypeError` (reading a field of `undefined`) is
modelled by returning `none`.
-/

namespace Bopomofo

/-- `interface Question` of `src/index.tsx` (lines 6-11). -/
structure Question where
  character : String
  zhuyin : String
  meaning : String
  distractors : List String
deriving DecidableEq

/-- The `screen` field of `GameState` (line 14). -/
inductive Screen where
  | menu
  | loading
  | playing
  | gameover
  | error
deriving DecidableEq

/-- `interface GameState` of `src/index.tsx` (lines 13-22). -/
structure GameState where
  screen : Screen
  score : Nat
  streak : Nat
  questions : List Question
  currentIndex : Nat
  lastAnswerCorrect : Option Bool
  selectedOption : Option String
  errorMessage : String
deriving DecidableEq

/-- The initial `useState` value (lines 39-48). -/
def initialState : GameState :=
  { screen := Screen.menu
    score := 0
    streak := 0
    questions := []
    currentIndex := 0
    lastAnswerCorrect := none
    selectedOption := none
    errorMessage := "" }

/-- JavaScript truthiness of a `string | null` value: `null` and the
empty string are falsy, every other string is truthy.  Used by the
guard `if (state.selectedOption) return;` (line 127). -/
def truthy : Option String → Bool
  | none => false
  | some s => !s.isEmpty

/-- The fixed user-facing message written by the `catch` branch of
`generateQuestions` (line 112). -/
def errorText : String := "生成題目失敗，請檢查網路連線後重試。"

/-- First `setState` of `generateQuestions` (line 51): move to the
loading screen and clear the error message before the fetch starts. -/
def generateQuestionsStart (s : GameState) : GameState :=
  { s with screen := Screen.loading, errorMessage := "" }

/-- Resolution of the fetch inside `generateQuestions`: `some qs` is a
successful, parsed response (lines 96-105); `none` is any failure
caught by the `catch` (network error, empty response text, parse
failure; lines 107-114).  The resolution callback carries no request
token: it updates whatever state is current when it runs. -/
def generateQuestionsResolve (s : GameState) : Option (List Question) → GameState
  | some qs =>
      { s with screen := Screen.playing
               questions := qs
               currentIndex := 0
               score := 0
               streak := 0
               lastAnswerCorrect := none
               selectedOption := none }
  | none =>
      { s with screen := Screen.error, errorMessage := errorText }

/-- `handleAnswer` (lines 126-143), the synchronous part: the guard on
line 127 tests JavaScript truthiness of `selectedOption`; then
`state.questions[state.currentIndex]` is read — if that index is out of
range the following `.zhuyin` access throws (`none` here) — and the
score/streak/selection update of lines 137-143 is applied. -/
def handleAnswer (s : GameState) (option : String) : Option GameState :=
  if truthy s.selectedOption then some s
  else
    match s.questions[s.currentIndex]? with
    | none => none
    | some currentQ =>
        let isCorrect := option == currentQ.zhuyin
        some { s with
                selectedOption := some option
                lastAnswerCorrect := some isCorrect
                score := if isCorrect then s.score + 10 + s.streak * 2 else s.score
                streak := if isCorrect then s.streak + 1 else 0 }

/-- The `setTimeout` callback scheduled by `handleAnswer`
(lines 146-160).  The branch condition reads `state` — the closure
captured at answer time (`captured`) — while the `setState` updater
mutates whatever state is current when the timer fires (`current`).
There is no staleness check. -/
def advanceTimer (captured current : GameState) : GameState :=
  if captured.currentIndex < captured.questions.length - 1 then
    { current with currentIndex := current.currentIndex + 1
                   selectedOption := none
                   lastAnswerCorrect := none }
  else
    { current with screen := Screen.gameover }

/-- One step of the in-place Fisher–Yates swap
`[all[i], all[j]] = [all[j], all[i]]` (line 173); out-of-range indices
would leave the list unchanged (they never occur in the source loop). -/
def listSwap {α : Type} (l : List α) (i j : Nat) : List α :=
  match l[i]?, l[j]? with
  | some a, some b => (l.set i b).set j a
  | _, _ => l

/-- The shuffle loop of lines 171-174, running the index `i` from `n`
down to `1`; `r i` models the draw `Math.floor(Math.random() * (i + 1))`
made at index `i` (always in `[0, i]` in the source). -/
def fisherYatesAux {α : Type} (r : Nat → Nat) : Nat → List α → List α
  | 0, l => l
  | n + 1, l => fisherYatesAux r n (listSwap l (n + 1) (r (n + 1)))

/-- The `shuffledOptions` computation of the effect on lines 166-177:
build `[...q.distractors, q.zhuyin]` and shuffle it in place. -/
def shuffledOptions (q : Question) (r : Nat → Nat) : List String :=
  let all := q.distractors ++ [q.zhuyin]
  fisherYatesAux r (all.length - 1) all

/-! Concrete data used by witnesses and counterexamples. -/

/-- A sample well-formed question. -/
def exQ : Question :=
  { character := "好"
    zhuyin := "ㄏㄠˇ"
    meaning := "good"
    distractors := ["ㄅㄠˇ", "ㄇㄠˊ", "ㄏㄡˇ"] }

/-- A sample in-play state sitting on `exQ` with nothing selected. -/
def playingState : GameState :=
  { screen := Screen.playing
    score := 0
    streak := 0
    questions := [exQ]
    currentIndex := 0
    lastAnswerCorrect := none
    selectedOption := none
    errorMessage := "" }

/-- A sample state whose whole game has been answered (`gameover`)
but whose `selectedOption` happens to be `none`. -/
def gameoverState : GameState :=
  { screen := Screen.gameover
    score := 5
    streak := 1
    questions := [exQ]
    currentIndex := 0
    lastAnswerCorrect := some true
    selectedOption := none
    errorMessage := "" }

/-- `playingState` after the user picked the distractor `"ㄅㄠˇ"`. -/
def lockedState : GameState :=
  { playingState with selectedOption := some "ㄅㄠˇ", lastAnswerCorrect := some false }

/-- `playingState` after the user picked an empty-string option. -/
def emptySelectedState : GameState :=
  { playingState with selectedOption := some "", lastAnswerCorrect := some false }

/-- C1: with `screen = playing` and `selectedOption` unset, answering
with the current question's correct answer adds `10 + 2*streak` to the
score (streak taken before the answer), increments the streak, stores
the option in `selectedOption` and sets `lastAnswerCorrect` to true. -/
theorem answer_correct (s : GameState) (q : Question) (option : String)
    ( _hscreen : s.screen = Screen.playing)
    (hsel : s.selectedOption = none)
    (hq : s.questions[s.currentIndex]? = some q)
    (hopt : option = q.zhuyin) :
    handleAnswer s option =
      some { s with selectedOption := some option
                    lastAnswerCorrect := some true
                    score := s.score + 10 + s.streak * 2
                    streak := s.streak + 1 } := by
  subst hopt
  simp [handleAnswer, truthy, hsel, hq]

/-- Witness for C1 at a concrete state: answering the only question of
`playingState` correctly yields score 10, streak 1. -/
theorem answer_correct_witness :
    handleAnswer playingState "ㄏㄠˇ" =
      some { playingState with selectedOption := some "ㄏㄠˇ"
                               lastAnswerCorrect := some true
                               score := 10
                               streak := 1 } :=
  answer_correct playingState exQ "ㄏㄠˇ" rfl rfl rfl rfl

/-- C2: with `screen = playing` and `selectedOption` unset, answering
with an option different from the correct answer leaves the score
unchanged, resets the streak to 0, sets `lastAnswerCorrect` to false
and records the chosen (wrong) option in `selectedOption`. -/
theorem answer_incorrect (s : GameState) (q : Question) (option : String)
    ( _hscreen : s.screen = Screen.playing)
    (hsel : s.selectedOption = none)
    (hq : s.questions[s.currentIndex]? = some q)
    (hopt : option ≠ q.zhuyin) :
    handleAnswer s option =
      some { s with selectedOption := some option
                    lastAnswerCorrect := some false
                    streak := 0 } := by
  simp [handleAnswer, truthy, hsel, hq, hopt]

/-- Witness for C2 at a concrete state: picking a distractor leaves the
score at 0, resets the streak and records the wrong option. -/
theorem answer_incorrect_witness :
    handleAnswer playingState "ㄅㄠˇ" =
      some { playingState with selectedOption := some "ㄅㄠˇ"
                               lastAnswerCorrect := some false
                               streak := 0 } :=
  answer_incorrect playingState exQ "ㄅㄠˇ" rfl rfl rfl (by decide)

/-- C8: a failed fetch yields `screen = error` with the fixed message,
and every other session field — questions, score, streak, currentIndex,
selectedOption, lastAnswerCorrect — keeps its pre-fetch value. -/
theorem fetch_failure_atomic (s : GameState) :
    (generateQuestionsResolve (generateQuestionsStart s) none).screen = Screen.error ∧
    (generateQuestionsResolve (generateQuestionsStart s) none).errorMessage = errorText ∧
    (generateQuestionsResolve (generateQuestionsStart s) none).questions = s.questions ∧
    (generateQuestionsResolve (generateQuestionsStart s) none).score = s.score ∧
    (generateQuestionsResolve (generateQuestionsStart s) none).streak = s.streak ∧
    (generateQuestionsResolve (generateQuestionsStart s) none).currentIndex = s.currentIndex ∧
    (generateQuestionsResolve (generateQuestionsStart s) none).selectedOption = s.selectedOption ∧
    (generateQuestionsResolve (generateQuestionsStart s) none).lastAnswerCorrect = s.lastAnswerCorrect :=
  ⟨rfl, rfl, rfl, rfl, rfl, rfl, rfl, rfl⟩

/-- C9: a successful fetch with a non-empty question list fully
reinitialises the playing state: `screen = playing`, the fetched
questions, index 0, score 0, streak 0, no selection, no last-answer
flag. -/
theorem fetch_success_restart (s : GameState) (Q : List Question)
    ( _hQ : 1 ≤ Q.length) :
    generateQuestionsResolve (generateQuestionsStart s) (some Q) =
      { s with screen := Screen.playing
               questions := Q
               currentIndex := 0
               score := 0
               streak := 0
               selectedOption := none
               lastAnswerCorrect := none
               errorMessage := "" } :=
  rfl

/-- Witness for C9 at a concrete state with a one-question list. -/
theorem fetch_success_restart_witness :
    generateQuestionsResolve (generateQuestionsStart initialState) (some [exQ]) =
      { initialState with screen := Screen.playing, questions := [exQ] } :=
  fetch_success_restart initialState [exQ] (by decide)

/-- C3 counterexample: `handleAnswer` guards only on `selectedOption`
truthiness, never on `screen`; called on a `gameover` state with no
selected option it is processed, not a no-op. -/
theorem answer_noop_counterexample :
    handleAnswer gameoverState "ㄏㄠˇ" ≠ some gameoverState := by decide

/-- C3 (amended): calling `answer` while `selectedOption` holds a
non-empty string is a no-op for every option and every screen: the
state is returned unchanged and no error is raised. -/
theorem answer_locked_noop (s : GameState) (option v : String)
    (hsel : s.selectedOption = some v) (hv : v ≠ "") :
    handleAnswer s option = some s := by
  have ht : truthy s.selectedOption = true := by
    rw [hsel]
    simp [truthy, Bool.eq_false_iff, String.isEmpty_iff, hv]
  simp [handleAnswer, ht]

/-- Witness for the amended C3 at a concrete state. -/
theorem answer_locked_noop_witness :
    handleAnswer lockedState "ㄏㄠˇ" = some lockedState :=
  answer_locked_noop lockedState "ㄏㄠˇ" "ㄅㄠˇ" rfl (by decide)

/-- C10: when `selectedOption` is the empty string the truthiness guard
does not engage, so a further `answer` call is processed again: the
full score/streak/selection update runs exactly as for a first
answer. -/
theorem empty_option_lock_bypass (s : GameState) (q : Question) (option : String)
    (hsel : s.selectedOption = some "")
    (hq : s.questions[s.currentIndex]? = some q) :
    handleAnswer s option =
      some { s with
              selectedOption := some option
              lastAnswerCorrect := some (option == q.zhuyin)
              score := if option == q.zhuyin then s.score + 10 + s.streak * 2 else s.score
              streak := if option == q.zhuyin then s.streak + 1 else 0 } := by
  have ht : truthy s.selectedOption = false := by rw [hsel]; decide
  simp [handleAnswer, ht, hq]

/-- Witness for C10 at a concrete state: after an empty-string answer a
second call changes score, streak and selection. -/
theorem empty_option_lock_bypass_witness :
    handleAnswer emptySelectedState "ㄏㄠˇ" =
      some { emptySelectedState with
              selectedOption := some "ㄏㄠˇ"
              lastAnswerCorrect := some true
              score := 10
              streak := 1 } := by
  have h := empty_option_lock_bypass emptySelectedState exQ "ㄏㄠˇ" rfl rfl
  simpa using h

/-- C7: when the timer fires while the session still shows the question
it was scheduled for (same question list and index as captured), a
non-last question advances the index by one and clears the selection
and the last-answer flag, and the last question moves the screen to
`gameover`. -/
theorem advance_fires (cap cur : GameState)
    (hq : cap.questions = cur.questions)
    (hi : cap.currentIndex = cur.currentIndex) :
    (cur.currentIndex < cur.questions.length - 1 →
      advanceTimer cap cur =
        { cur with currentIndex := cur.currentIndex + 1
                   selectedOption := none
                   lastAnswerCorrect := none }) ∧
    (cur.questions ≠ [] → cur.currentIndex = cur.questions.length - 1 →
      (advanceTimer cap cur).screen = Screen.gameover) := by
  constructor
  · intro h
    have hcap : cap.currentIndex < cap.questions.length - 1 := by
      rw [hq, hi]; exact h
    simp [advanceTimer, hcap]
  · intro hne hlast
    have hcap : ¬ cap.currentIndex < cap.questions.length - 1 := by
      rw [hq, hi, hlast]; exact Nat.lt_irrefl _
    simp [advanceTimer, hcap]

/-- A state on the first of two questions, answered correctly. -/
def twoQuestionState : GameState :=
  { playingState with
      questions := [exQ, exQ]
      selectedOption := some "ㄏㄠˇ"
      lastAnswerCorrect := some true
      score := 10
      streak := 1 }

/-- Witness for C7 at a concrete two-question state. -/
theorem advance_fires_witness :
    advanceTimer twoQuestionState twoQuestionState =
      { twoQuestionState with
          currentIndex := twoQuestionState.currentIndex + 1
          selectedOption := none
          lastAnswerCorrect := none } :=
  (advance_fires twoQuestionState twoQuestionState rfl rfl).1 (by decide)

/-- The state captured by the timer of the last (only) question's
answer, while the game is still in play. -/
def answeredLastState : GameState :=
  { playingState with
      selectedOption := some "ㄏㄠˇ"
      lastAnswerCorrect := some true
      score := 10
      streak := 1 }

/-- The session after the user has since returned to the menu. -/
def backToMenuState : GameState :=
  { answeredLastState with screen := Screen.menu }

/-- C4 is violated by the code: the timer callback has no staleness
check, so a stale timer captured on the last question fires on a
session that has returned to `menu` and mutates it (the screen jumps to
`gameover`). -/
theorem stale_timer_mutates :
    advanceTimer answeredLastState backToMenuState =
      { backToMenuState with screen := Screen.gameover } ∧
    advanceTimer answeredLastState backToMenuState ≠ backToMenuState := by
  exact ⟨rfl, by decide⟩

/-- Question list returned by the first (stale) fetch. -/
def qListA : List Question :=
  [{ character := "山"
     zhuyin := "ㄕㄢ"
     meaning := "mountain"
     distractors := ["ㄙㄢ", "ㄕㄤ", "ㄔㄢ"] }]

/-- Question list returned by the second (newer) fetch. -/
def qListB : List Question :=
  [{ character := "水"
     zhuyin := "ㄕㄨㄟˇ"
     meaning := "water"
     distractors := ["ㄙㄨㄟˇ", "ㄕㄨㄟˋ", "ㄖㄨㄟˇ"] }]

/-- C5 is violated by the code: the fetch resolution carries no request
token, so when `selectLevel` runs twice and the first fetch resolves
after the second, the stale result overwrites the session the second
fetch established. -/
theorem stale_fetch_overwrites :
    (generateQuestionsResolve
        (generateQuestionsStart (generateQuestionsStart initialState))
        (some qListB)).questions = qListB ∧
    (generateQuestionsResolve
        (generateQuestionsResolve
          (generateQuestionsStart (generateQuestionsStart initialState))
          (some qListB))
        (some qListA)).questions = qListA ∧
    qListA ≠ qListB := by
  exact ⟨rfl, rfl, by decide⟩

/-- `b :: t.set k a` is a permutation of `a :: t` when `t[k] = b`:
writing `a` into slot `k` and pulling the old inhabitant `b` to the
front only exchanges the two elements. -/
theorem cons_set_perm {α : Type} (t : List α) (k : Nat) (a b : α)
    (h : t[k]? = some b) : List.Perm (b :: t.set k a) (a :: t) := by
  induction t generalizing k with
  | nil => simp at h
  | cons y u ih =>
    cases k with
    | zero =>
      simp only [List.getElem?_cons_zero, Option.some.injEq] at h
      subst h
      exact List.Perm.swap a y u
    | succ m =>
      simp only [List.getElem?_cons_succ] at h
      have h1 : List.Perm (b :: y :: u.set m a) (y :: b :: u.set m a) :=
        List.Perm.swap y b _
      have h2 : List.Perm (y :: b :: u.set m a) (y :: a :: u) :=
        List.Perm.cons y (ih m h)
      have h3 : List.Perm (y :: a :: u) (a :: y :: u) := List.Perm.swap a y u
      simpa using (h1.trans h2).trans h3

/-- The double update `(l.set i b).set j a` with `a = l[i]`, `b = l[j]`
— one Fisher–Yates swap — is a permutation of `l`. -/
theorem set_set_perm {α : Type} (l : List α) (i j : Nat) (a b : α)
    (ha : l[i]? = some a) (hb : l[j]? = some b) :
    List.Perm ((l.set i b).set j a) l := by
  induction l generalizing i j with
  | nil => simp at ha
  | cons x t ih =>
    cases i with
    | zero =>
      simp only [List.getElem?_cons_zero, Option.some.injEq] at ha
      subst ha
      cases j with
      | zero =>
        simp only [List.getElem?_cons_zero, Option.some.injEq] at hb
        subst hb
        simp
      | succ k =>
        simp only [List.getElem?_cons_succ] at hb
        simpa using cons_set_perm t k x b hb
    | succ m =>
      simp only [List.getElem?_cons_succ] at ha
      cases j with
      | zero =>
        simp only [List.getElem?_cons_zero, Option.some.injEq] at hb
        subst hb
        simpa using cons_set_perm t m x a ha
      | succ k =>
        simp only [List.getElem?_cons_succ] at hb
        simpa using List.Perm.cons x (ih m k ha hb)

/-- `listSwap` never changes the multiset of elements. -/
theorem listSwap_perm {α : Type} (l : List α) (i j : Nat) :
    List.Perm (listSwap l i j) l := by
  unfold listSwap
  cases ha : l[i]? with
  | none => cases l[j]? <;> exact List.Perm.refl _
  | some a =>
    cases hb : l[j]? with
    | none => exact List.Perm.refl _
    | some b => exact set_set_perm l i j a b ha hb

/-- The whole shuffle loop never changes the multiset of elements. -/
theorem fisherYatesAux_perm {α : Type} (r : Nat → Nat) :
    ∀ (n : Nat) (l : List α), List.Perm (fisherYatesAux r n l) l
  | 0, l => List.Perm.refl l
  | n + 1, l =>
    (fisherYatesAux_perm r n (listSwap l (n + 1) (r (n + 1)))).trans
      (listSwap_perm l (n + 1) (r (n + 1)))

/-- C6: whatever draws the shuffle makes, `shuffledOptions` is a
permutation — same multiset of elements — of the question's distractors
together with its correct answer. -/
theorem shuffledOptions_perm (q : Question) (r : Nat → Nat) :
    List.Perm (shuffledOptions q r) (q.distractors ++ [q.zhuyin]) :=
  fisherYatesAux_perm r ((q.distractors ++ [q.zhuyin]).length - 1)
    (q.distractors ++ [q.zhuyin])

end Bopomofo
